import Mathlib

/-!
Shallow embedding of the `utils::Logger` header-only C++ logging library
(`src/include/logger.h`).  Pure data is modelled directly; the filesystem is
an association list from path to file content; clock readings (date stamps,
timestamps, millisecond counters, high-resolution ticks) are passed in as
explicit parameters; `throw` is modelled by `Except`.
-/

/-- Decimal digit character, as produced by `std::to_string` (ASCII `'0' + d`). -/
def digitChar (d : Nat) : Char := Char.ofNat (48 + d)

/-- Numeric value of a decimal digit character. -/
def digitVal (c : Char) : Nat := c.toNat - 48

/-- Decimal digit list of a natural number, most significant digit first:
the character sequence `std::to_string` produces. -/
def natDigits (n : Nat) : List Char :=
  if _h : n < 10 then [digitChar n]
  else natDigits (n / 10) ++ [digitChar (n % 10)]
decreasing_by exact Nat.div_lt_self (by omega) (by omega)

/-- Model of `std::to_string` on unsigned integers. -/
def natStr (n : Nat) : String := ⟨natDigits n⟩

/-- Value of a digit string, most significant digit first. -/
def digitsVal (cs : List Char) : Nat := cs.foldl (fun a c => 10 * a + digitVal c) 0

theorem digitsVal_append (xs : List Char) (c : Char) :
    digitsVal (xs ++ [c]) = 10 * digitsVal xs + digitVal c := by
  simp [digitsVal]

theorem digitVal_digitChar : ∀ d, d < 10 → digitVal (digitChar d) = d := by decide

theorem digitsVal_natDigits (n : Nat) : digitsVal (natDigits n) = n := by
  induction n using Nat.strong_induction_on with
  | _ n ih =>
    rw [natDigits]
    by_cases h : n < 10
    · simp only [h, if_pos, dif_pos]
      simp [digitsVal, digitVal_digitChar n h]
    · simp only [h, dif_neg, not_false_iff]
      rw [digitsVal_append, ih (n / 10) (Nat.div_lt_self (by omega) (by omega)),
        digitVal_digitChar (n % 10) (Nat.mod_lt n (by omega))]
      omega

theorem natDigits_inj {m n : Nat} (h : natDigits m = natDigits n) : m = n := by
  have hm := digitsVal_natDigits m
  have hn := digitsVal_natDigits n
  rw [h] at hm; omega

theorem natStr_inj {m n : Nat} (h : natStr m = natStr n) : m = n := by
  apply natDigits_inj
  have := congrArg String.data h
  simpa [natStr] using this

/-- Archive file name `fileName + "." + std::to_string(i)` used by size rotation. -/
def archName (base : String) (i : Nat) : String := base ++ "." ++ natStr i

theorem archName_inj {base : String} {i j : Nat} (h : archName base i = archName base j) :
    i = j := by
  apply natStr_inj
  have hd : base.data ++ ('.' :: natDigits i) = base.data ++ ('.' :: natDigits j) := by
    have := congrArg String.data h
    simpa [archName, natStr, String.instAppend, String.append] using this
  have := List.append_cancel_left hd
  exact String.ext (by simpa using this)

theorem natDigits_ne_nil (n : Nat) : natDigits n ≠ [] := by
  rw [natDigits]
  by_cases h : n < 10 <;> simp [h]

theorem base_ne_archName (base : String) (i : Nat) : base ≠ archName base i := by
  intro h
  have := congrArg (fun s : String => s.data.length) h
  simp only [archName, natStr] at this
  have hlen : (base ++ "." ++ (⟨natDigits i⟩ : String)).data.length
      = base.data.length + 1 + (natDigits i).length := by
    simp [String.instAppend, String.append]
    omega
  rw [hlen] at this
  have := natDigits_ne_nil i
  cases hnd : natDigits i with
  | nil => exact (this hnd).elim
  | cons c cs => rw [hnd] at *; simp at this; omega

/-- File system model: association list from file path to file content.
Lookup returns the most recently written entry. -/
def Fs : Type := List (String × String)

/-- Content of a path, `none` when the path does not exist. -/
def fsLookup : Fs → String → Option String
  | [], _ => none
  | (m, c) :: fs, n => if m = n then some c else fsLookup fs n

/-- Delete every entry of a path. -/
def fsRemove (fs : Fs) (n : String) : Fs := fs.filter (fun p => ¬ (p.1 = n))

/-- Create or overwrite a path with the given content. -/
def fsSet (fs : Fs) (n : String) (c : String) : Fs := (n, c) :: fsRemove fs n

/-- Model of `std::filesystem::exists`. -/
def fsExists (fs : Fs) (n : String) : Bool := (fsLookup fs n).isSome

/-- Model of `std::filesystem::file_size` (0 when the path is absent). -/
def fileSize (fs : Fs) (n : String) : Nat := ((fsLookup fs n).getD "").length

/-- Model of `std::filesystem::rename`: moves `old` to `nw`, replacing `nw`. -/
def fsRename (fs : Fs) (old : String) (nw : String) : Fs :=
  match fsLookup fs old with
  | some c => fsSet (fsRemove fs old) nw c
  | none => fs

theorem fsLookup_fsRemove (fs : Fs) (n m : String) :
    fsLookup (fsRemove fs n) m = if m = n then none else fsLookup fs m := by
  induction fs with
  | nil => by_cases h : m = n <;> simp [fsRemove, fsLookup, h]
  | cons p fs ih =>
    obtain ⟨a, c⟩ := p
    show fsLookup (List.filter _ ((a, c) :: fs)) m = _
    rw [List.filter_cons]
    by_cases h1 : a = n
    · rw [if_neg (by simp [h1])]
      rw [show (List.filter (fun p => ¬ (p.1 = n)) fs : Fs) = fsRemove fs n from rfl, ih]
      by_cases h2 : m = n
      · simp [h2]
      · rw [if_neg h2, if_neg h2, fsLookup, if_neg (fun hh : a = m => h2 (hh ▸ h1))]
    · rw [if_pos (by simp [h1])]
      show fsLookup ((a, c) :: fsRemove fs n) m = _
      rw [fsLookup]
      by_cases h2 : a = m
      · rw [if_pos h2, if_neg (fun hh : m = n => h1 (h2.trans hh)), fsLookup, if_pos h2]
      · rw [if_neg h2, ih, fsLookup, if_neg h2]

theorem fsLookup_fsSet (fs : Fs) (n c m) :
    fsLookup (fsSet fs n c) m = if m = n then some c else fsLookup fs m := by
  show fsLookup ((n, c) :: fsRemove fs n) m = _
  rw [fsLookup]
  by_cases h : m = n
  · rw [if_pos h.symm, if_pos h]
  · rw [if_neg (fun hh => h hh.symm), fsLookup_fsRemove, if_neg h, if_neg h]

/-- Rotation policy `Logger::Policy` (logger.h:104). -/
inductive Policy : Type
  | NONE
  | MAX_SIZE
  | DAILY
deriving DecidableEq

/-- Log levels `utils::LogLevel` (logger.h:98). -/
inductive LogLevel : Type
  | DEBUG
  | INFO
  | ERROR
  | PROFILING
  | NONE
deriving DecidableEq

/-- Index of a level in the `_sinks` array (only the first four are used). -/
def LogLevel.idx : LogLevel → Nat
  | .DEBUG => 0
  | .INFO => 1
  | .ERROR => 2
  | .PROFILING => 3
  | .NONE => 4

/-- Model of `Logger::LogSink` (logger.h:119-164).  The `stream` pointer is
represented by the pair (`fileName`, `stdBuf`): a sink with nonempty
`fileName` owns the file at that path (its stream content lives in the file
system), a sink with empty `fileName` wraps a standard stream whose
accumulated output is `stdBuf`.  `dailyTaskStarted` records that the
constructor detached a `_dailyRotationThread` for this sink. -/
structure LogSink : Type where
  fileName : String
  creationDate : String
  maxSize : Nat
  maxNumFiles : Nat
  rotateDaily : Bool
  stdBuf : String
  dailyTaskStarted : Bool
deriving DecidableEq, Repr

/-- Model of `Logger::LogSink::LogSink(std::ostream&)` (logger.h:129). -/
def LogSink.ofStream : LogSink :=
  { fileName := "", creationDate := "", maxSize := 0, maxNumFiles := 0,
    rotateDaily := false, stdBuf := "", dailyTaskStarted := false }

/-- Model of `Logger::_openLogFile` (logger.h:289-296): opens `fileName` in
append mode (`ios::ate | ios::app`), creating it empty when absent, and throws
when the file cannot be opened.  `openable` abstracts the OS-level
possibility of opening the path. -/
def openLogFile (openable : String → Bool) (fs : Fs) (fileName : String) :
    Except String Fs :=
  if openable fileName then
    if fsExists fs fileName then Except.ok fs
    else Except.ok (fsSet fs fileName "")
  else Except.error ("Log File cannot be opened: " ++ fileName)

/-- Model of the file-sink constructor
`Logger::LogSink::LogSink(const std::string&, Policy, uint8_t, uintmax_t)`
(logger.h:130-156).  `initDate` is the `"%Y%m%d"` stamp the Daily branch
computes from the pre-existing file's last-write time, or from the current
time when the file does not exist. -/
def mkFileSink (openable : String → Bool) (fs : Fs) (fileName : String)
    (policy : Policy) (maxNumFiles : Nat) (maxSize : Nat) (initDate : String) :
    Except String (LogSink × Fs) :=
  let sink0 : LogSink :=
    { fileName := fileName, creationDate := "", maxSize := maxSize,
      maxNumFiles :=
        if policy = Policy.MAX_SIZE ∧ maxSize ≠ 0 then max maxNumFiles 2 else 0,
      rotateDaily := false, stdBuf := "", dailyTaskStarted := false }
  if policy = Policy.DAILY then
    match openLogFile openable fs fileName with
    | Except.error e => Except.error e
    | Except.ok fs1 =>
      match openLogFile openable fs1 fileName with
      | Except.error e => Except.error e
      | Except.ok fs2 =>
        Except.ok ({ sink0 with creationDate := initDate, dailyTaskStarted := true }, fs2)
  else
    match openLogFile openable fs fileName with
    | Except.error e => Except.error e
    | Except.ok fs1 => Except.ok (sink0, fs1)

/-- Archive-shifting loop of `Logger::_sizeRotation` (logger.h:272-277): for
`i` from the start value down to 1, if `path.i` exists rename it to
`path.(i+1)`.  The C++ loop starts at `maxNumFiles - 2` computed in `int`
arithmetic, so it runs no iteration when `maxNumFiles < 3`; the caller passes
the natural-subtraction value `maxNumFiles - 2`, which is 0 in exactly those
cases. -/
def shiftLoop (fs : Fs) (base : String) : Nat → Fs
  | 0 => fs
  | i + 1 =>
    let file := archName base (i + 1)
    let fs1 := if fsExists fs file then fsRename fs file (archName base (i + 2)) else fs
    shiftLoop fs1 base i

/-- Model of `Logger::_sizeRotation` (logger.h:267-287).  `today` is the
current `"%Y%m%d"` stamp. -/
def sizeRotation (openable : String → Bool) (fs : Fs) (sink : LogSink)
    (today : String) : Except String (Fs × LogSink) :=
  if fileSize fs sink.fileName > sink.maxSize then
    let fs1 := shiftLoop fs sink.fileName (sink.maxNumFiles - 2)
    let fs2 := fsRename fs1 sink.fileName (archName sink.fileName 1)
    match openLogFile openable fs2 sink.fileName with
    | Except.error e => Except.error e
    | Except.ok fs3 => Except.ok (fs3, { sink with creationDate := today })
  else Except.ok (fs, sink)

/-- Body of one iteration of `Logger::_dailyRotationThread` (logger.h:222-236),
up to and including the conditional rotation; the sleep until the next
midnight is timing behaviour outside the state model.  `today` is the
`"%Y%m%d"` stamp computed at the top of the loop body. -/
def dailyRotationStep (openable : String → Bool) (fs : Fs) (sink : LogSink)
    (today : String) : Except String (Fs × LogSink) :=
  if sink.creationDate ≠ today ∧ fileSize fs sink.fileName ≠ 0 then
    let fs1 := fsRename fs sink.fileName (sink.fileName ++ "." ++ sink.creationDate)
    match openLogFile openable fs1 sink.fileName with
    | Except.error e => Except.error e
    | Except.ok fs2 => Except.ok (fs2, { sink with creationDate := today })
  else Except.ok (fs, sink)

/-- Level-specific headers `Logger::_HEADERS` (logger.h:166). -/
def HEADERS : List String :=
  ["DEBUG: ", "INFO: ", "*** ERROR!\n                         "]

/-- Header used by `_write` for a level (`_HEADERS[level]`). -/
def headerOf (level : LogLevel) : String := HEADERS.getD level.idx ""

/-- Rendering of the millisecond field: `std::setw(3) << std::setfill('0')`
applied to a value smaller than 1000. -/
def pad3 (n : Nat) : String :=
  if n < 10 then "00" ++ natStr n
  else if n < 100 then "0" ++ natStr n
  else natStr n

/-- Text appended to the stream by one `Logger::_write` call (logger.h:254):
`std::endl << put_time(.., "%F %T") << "." << milliseconds << " - " <<
_HEADERS[level] << trace`.  `ts` is the rendered `"%F %T"` local-time stamp
and `ms` the millisecond counter (already reduced mod 1000 by the caller). -/
def logRecord (ts : String) (ms : Nat) (level : LogLevel) (trace : String) : String :=
  "\n" ++ ts ++ "." ++ pad3 ms ++ " - " ++ headerOf level ++ trace

/-- Append text to a sink's stream: to the owned file for a file-backed sink,
to the wrapped standard stream otherwise. -/
def sinkAppend (fs : Fs) (sink : LogSink) (s : String) : Fs × LogSink :=
  if sink.fileName = "" then (fs, { sink with stdBuf := sink.stdBuf ++ s })
  else (fsSet fs sink.fileName (((fsLookup fs sink.fileName).getD "") ++ s), sink)

/-- Model of `Logger::_write` (logger.h:249-256) acting on the sink resolved
for the level: under the sink's lock, run the size rotation when `maxSize`
is nonzero, then append the timestamped record. -/
def writeLog (openable : String → Bool) (fs : Fs) (sink : LogSink)
    (level : LogLevel) (ts : String) (ms : Nat) (today : String)
    (trace : String) : Except String (Fs × LogSink) :=
  match (if sink.maxSize ≠ 0 then sizeRotation openable fs sink today
         else Except.ok (fs, sink)) with
  | Except.error e => Except.error e
  | Except.ok (fs1, sink1) =>
    Except.ok (sinkAppend fs1 sink1 (logRecord ts ms level trace))

/-- Model of the logger's static sink table (logger.h:173-175): an arena of
sink records plus, per level slot, the index of the record it shares.
Aliasing of `std::shared_ptr` references is index equality. -/
structure LoggerState : Type where
  store : List LogSink
  sinkId : Fin 4 → Nat

/-- Slot of a level in the `_sinks` array. -/
def slotOf (level : LogLevel) : Fin 4 :=
  match level with
  | .DEBUG => 0
  | .INFO => 1
  | .ERROR => 2
  | _ => 3

/-- Sink record a level currently resolves to. -/
def sinkOf (st : LoggerState) (slot : Fin 4) : LogSink :=
  st.store.getD (st.sinkId slot) LogSink.ofStream

/-- Initial sink table (logger.h:173-175): `defLogSink` wraps `std::cout` and
serves DEBUG, INFO and PROFILING; `defErrLogSink` wraps `std::cerr` and
serves ERROR. -/
def initLoggerState : LoggerState :=
  { store := [LogSink.ofStream, LogSink.ofStream],
    sinkId := fun slot => if slot = (2 : Fin 4) then 1 else 0 }

/-- Iteration order of `for (auto& sink : _sinks)` over the four slots. -/
def slots : List (Fin 4) := [0, 1, 2, 3]

/-- Model of `Logger::setLogFile(LogLevel, ...)` (logger.h:354-368): throws
when the level already has a file name; otherwise reuses the first sink in
`_sinks` order whose file name equals the requested one, and constructs a
fresh sink when none matches. -/
def setLogFileLevel (openable : String → Bool) (st : LoggerState) (fs : Fs)
    (level : LogLevel) (fileName : String) (policy : Policy)
    (maxNumFiles : Nat) (maxSize : Nat) (initDate : String) :
    Except String (LoggerState × Fs) :=
  if (sinkOf st (slotOf level)).fileName ≠ "" then
    Except.error "Log file already assigned to this log level"
  else
    match slots.find? (fun s => (sinkOf st s).fileName == fileName) with
    | some hit =>
      Except.ok ({ st with sinkId := fun s =>
        if (s = slotOf level) then st.sinkId hit else st.sinkId s }, fs)
    | none =>
      match mkFileSink openable fs fileName policy maxNumFiles maxSize initDate with
      | Except.error e => Except.error e
      | Except.ok (sink, fs1) =>
        Except.ok ({ store := st.store ++ [sink],
                     sinkId := fun s =>
                       if (s = slotOf level) then st.store.length else st.sinkId s }, fs1)

/-- Model of `Logger::setLogFile(const std::string&, ...)` (logger.h:370-378):
throws when any level already has a file name; otherwise constructs one sink
and assigns it to all four level slots. -/
def setLogFileAll (openable : String → Bool) (st : LoggerState) (fs : Fs)
    (fileName : String) (policy : Policy) (maxNumFiles : Nat) (maxSize : Nat)
    (initDate : String) : Except String (LoggerState × Fs) :=
  match slots.find? (fun s => !((sinkOf st s).fileName == "")) with
  | some s =>
    Except.error ("Log file already assigned to a log sink: " ++ (sinkOf st s).fileName)
  | none =>
    match mkFileSink openable fs fileName policy maxNumFiles maxSize initDate with
    | Except.error e => Except.error e
    | Except.ok (sink, fs1) =>
      Except.ok ({ store := st.store ++ [sink],
                   sinkId := fun _ => st.store.length }, fs1)

/-- Post-state of a `setLogFile(LogLevel, ...)` call including C++ exception
semantics: a throw propagates before any member of the static table is
assigned, so on error the table and the file system are unchanged. -/
def setLogFileLevelRun (openable : String → Bool) (st : LoggerState) (fs : Fs)
    (level : LogLevel) (fileName : String) (policy : Policy)
    (maxNumFiles : Nat) (maxSize : Nat) (initDate : String) : LoggerState × Fs :=
  match setLogFileLevel openable st fs level fileName policy maxNumFiles maxSize initDate with
  | Except.ok r => r
  | Except.error _ => (st, fs)

/-- Post-state of a `setLogFile(const std::string&, ...)` call including C++
exception semantics (a throw leaves the table and file system unchanged). -/
def setLogFileAllRun (openable : String → Bool) (st : LoggerState) (fs : Fs)
    (fileName : String) (policy : Policy) (maxNumFiles : Nat) (maxSize : Nat)
    (initDate : String) : LoggerState × Fs :=
  match setLogFileAll openable st fs fileName policy maxNumFiles maxSize initDate with
  | Except.ok r => r
  | Except.error _ => (st, fs)

/-- Modelled from the spec: `DualFunction` comes from `dual_function.h`,
which is included by `logger.h` but is not part of this repository's
sources.  Per the spec it is a "runtime-switchable dual-mode function
object" holding two implementations; `enableFirst` / `enableSecond` select
which one subsequent calls dispatch to, and by default every level is
enabled, so the first (real) implementation starts selected. -/
structure DualFunction (α : Type) : Type where
  f1 : α
  f2 : α
  firstSelected : Bool

/-- Select the first implementation for subsequent calls. -/
def DualFunction.enableFirst {α : Type} (d : DualFunction α) : DualFunction α :=
  { d with firstSelected := true }

/-- Select the second implementation for subsequent calls. -/
def DualFunction.enableSecond {α : Type} (d : DualFunction α) : DualFunction α :=
  { d with firstSelected := false }

/-- Invoke the currently selected implementation. -/
def DualFunction.call {α : Type} (d : DualFunction α) : α :=
  if d.firstSelected then d.f1 else d.f2

/-- Observable effect of one write entry point call: `some (level, trace)`
when it invokes `_write(level, trace)`, `none` when it is the discarding
no-op lambda `[](std::string) {}`. -/
def WriteEffect : Type := String → Option (LogLevel × String)

/-- Observable result of one stream accessor call: `some level` when it
invokes `_getStream(level)` (writing a header and returning the level's real
sink stream), `none` when it returns the null stream. -/
def StreamEffect : Type := Option LogLevel

/-- The six gate-switched entry points of `Logger` (logger.h:207-213):
`debug`, `info`, `error` and `getDebugStream`, `getInfoStream`,
`getErrorStream`, each a `DualFunction` whose first implementation performs
the real work and whose second discards. -/
structure GateState : Type where
  debug : DualFunction WriteEffect
  info : DualFunction WriteEffect
  error : DualFunction WriteEffect
  getDebugStream : DualFunction StreamEffect
  getInfoStream : DualFunction StreamEffect
  getErrorStream : DualFunction StreamEffect

/-- Initial gate state (logger.h:207-213): each entry point pairs its real
implementation with a discarding one, and all levels start enabled. -/
def initGates : GateState :=
  { debug := { f1 := fun trace => some (LogLevel.DEBUG, trace), f2 := fun _ => none,
               firstSelected := true },
    info := { f1 := fun trace => some (LogLevel.INFO, trace), f2 := fun _ => none,
              firstSelected := true },
    error := { f1 := fun trace => some (LogLevel.ERROR, trace), f2 := fun _ => none,
               firstSelected := true },
    getDebugStream := { f1 := some LogLevel.DEBUG, f2 := none, firstSelected := true },
    getInfoStream := { f1 := some LogLevel.INFO, f2 := none, firstSelected := true },
    getErrorStream := { f1 := some LogLevel.ERROR, f2 := none, firstSelected := true } }

/-- Model of `Logger::setLevel` (logger.h:318-352).  The `switch` has no
case for `PROFILING`, so that argument leaves every gate unchanged. -/
def setLevel (g : GateState) (level : LogLevel) : GateState :=
  match level with
  | LogLevel.DEBUG =>
    { debug := g.debug.enableFirst, info := g.info.enableFirst,
      error := g.error.enableFirst,
      getDebugStream := g.getDebugStream.enableFirst,
      getInfoStream := g.getInfoStream.enableFirst,
      getErrorStream := g.getErrorStream.enableFirst }
  | LogLevel.INFO =>
    { debug := g.debug.enableSecond, info := g.info.enableFirst,
      error := g.error.enableFirst,
      getDebugStream := g.getDebugStream.enableSecond,
      getInfoStream := g.getInfoStream.enableFirst,
      getErrorStream := g.getErrorStream.enableFirst }
  | LogLevel.ERROR =>
    { debug := g.debug.enableSecond, info := g.info.enableSecond,
      error := g.error.enableFirst,
      getDebugStream := g.getDebugStream.enableSecond,
      getInfoStream := g.getInfoStream.enableSecond,
      getErrorStream := g.getErrorStream.enableFirst }
  | LogLevel.NONE =>
    { debug := g.debug.enableSecond, info := g.info.enableSecond,
      error := g.error.enableSecond,
      getDebugStream := g.getDebugStream.enableSecond,
      getInfoStream := g.getInfoStream.enableSecond,
      getErrorStream := g.getErrorStream.enableSecond }
  | LogLevel.PROFILING => g

/-- Model of `Logger::startTimer` (logger.h:301-304): writes a
"Timer #N STARTED" line (N = new stack depth) to the PROFILING sink's
stream and pushes the current high-resolution timestamp (`now`, in ticks)
on the back of `_timers`. -/
def startTimer (fn : String) (line : Nat) (now : Nat) (timers : List Nat)
    (out : String) : List Nat × String :=
  (timers ++ [now],
   out ++ "\nTimer #" ++ natStr (timers.length + 1) ++ " STARTED at " ++ fn
       ++ " (Line " ++ natStr line ++ ")")

/-- Model of `Logger::stopTimer<UNIT>` (logger.h:306-316): when the timer
stack is non-empty, pops its back element and writes a "Timer #N STOPPED"
line with the elapsed duration `duration_cast<UNIT>(stopTime - back)`
(`unitCast` abstracts the tick-to-unit conversion); when the stack is
empty, writes "Timer not started!" followed by `std::endl`. -/
def stopTimer (unitCast : Nat → Nat) (unit : String) (fn : String) (line : Nat)
    (stopTime : Nat) (timers : List Nat) (out : String) : List Nat × String :=
  match timers.getLast? with
  | some t =>
    (timers.dropLast,
     out ++ "\nTimer #" ++ natStr timers.length ++ " STOPPED at " ++ fn
         ++ " (Line " ++ natStr line ++ ") --- DURATION = "
         ++ natStr (unitCast (stopTime - t)) ++ " " ++ unit)
  | none => (timers, out ++ "Timer not started!" ++ "\n")

theorem self_ne_append_dot (base s : String) : base ≠ base ++ "." ++ s := by
  intro h
  have := congrArg (fun t : String => t.data.length) h
  simp [String.instAppend, String.append] at this

theorem fsLookup_fsRename_new (fs : Fs) (old nw : String) (c : String)
    (h : fsLookup fs old = some c) : fsLookup (fsRename fs old nw) nw = some c := by
  rw [fsRename, h, fsLookup_fsSet, if_pos rfl]

theorem fsLookup_fsRename_old (fs : Fs) (old nw : String) (c : String)
    (h : fsLookup fs old = some c) (hne : old ≠ nw) :
    fsLookup (fsRename fs old nw) old = none := by
  rw [fsRename, h, fsLookup_fsSet, if_neg hne, fsLookup_fsRemove, if_pos rfl]

theorem fsLookup_fsRename_other (fs : Fs) (old nw m : String)
    (h1 : m ≠ old) (h2 : m ≠ nw) :
    fsLookup (fsRename fs old nw) m = fsLookup fs m := by
  rw [fsRename]
  cases h : fsLookup fs old with
  | none => rfl
  | some c => rw [fsLookup_fsSet, if_neg h2, fsLookup_fsRemove, if_neg h1]

theorem exists_of_fileSize_pos (fs : Fs) (n : String) (h : fileSize fs n ≠ 0) :
    ∃ c, fsLookup fs n = some c := by
  cases hc : fsLookup fs n with
  | none => rw [fileSize, hc] at h; simp at h
  | some c => exact ⟨c, rfl⟩

theorem shiftLoop_frame (base : String) :
    ∀ (i : Nat) (fs : Fs) (m : String),
      (∀ k, 1 ≤ k → k ≤ i + 1 → m ≠ archName base k) →
      fsLookup (shiftLoop fs base i) m = fsLookup fs m := by
  intro i
  induction i with
  | zero => intro fs m _; rfl
  | succ i ih =>
    intro fs m hm
    show fsLookup (shiftLoop (if fsExists fs (archName base (i + 1))
      then fsRename fs (archName base (i + 1)) (archName base (i + 2)) else fs) base i) m
      = fsLookup fs m
    rw [ih _ m (fun k h1 h2 => hm k h1 (by omega))]
    by_cases hex : fsExists fs (archName base (i + 1))
    · rw [if_pos hex,
        fsLookup_fsRename_other _ _ _ _ (hm (i + 1) (by omega) (by omega))
          (hm (i + 2) (by omega) (by omega))]
    · rw [if_neg hex]

theorem shiftLoop_shift (base : String) :
    ∀ (i : Nat) (fs : Fs) (k : Nat) (c : String),
      1 ≤ k → k ≤ i → fsLookup fs (archName base k) = some c →
      fsLookup (shiftLoop fs base i) (archName base (k + 1)) = some c := by
  intro i
  induction i with
  | zero => intro fs k c h1 h2 _; omega
  | succ i ih =>
    intro fs k c h1 h2 hc
    show fsLookup (shiftLoop (if fsExists fs (archName base (i + 1))
      then fsRename fs (archName base (i + 1)) (archName base (i + 2)) else fs) base i)
        (archName base (k + 1)) = some c
    by_cases hk : k = i + 1
    · subst hk
      rw [if_pos (by rw [fsExists, hc]; rfl)]
      rw [shiftLoop_frame base i _ _
        (fun j hj1 hj2 heq => by have := archName_inj heq; omega)]
      exact fsLookup_fsRename_new _ _ _ _ hc
    · have hk' : k ≤ i := by omega
      have hne1 : archName base k ≠ archName base (i + 1) :=
        fun heq => by have := archName_inj heq; omega
      have hne2 : archName base k ≠ archName base (i + 2) :=
        fun heq => by have := archName_inj heq; omega
      by_cases hex : fsExists fs (archName base (i + 1))
      · rw [if_pos hex]
        exact ih _ k c h1 hk' (by rw [fsLookup_fsRename_other _ _ _ _ hne1 hne2]; exact hc)
      · rw [if_neg hex]
        exact ih _ k c h1 hk' hc

theorem sizeRotation_eq_of_over (openable : String → Bool) (fs : Fs) (sink : LogSink)
    (today : String)
    (hover : fileSize fs sink.fileName > sink.maxSize)
    (hopen : openable sink.fileName = true) :
    sizeRotation openable fs sink today
      = Except.ok
          (fsSet (fsRename (shiftLoop fs sink.fileName (sink.maxNumFiles - 2))
              sink.fileName (archName sink.fileName 1)) sink.fileName "",
           { sink with creationDate := today }) := by
  obtain ⟨c, hc⟩ := exists_of_fileSize_pos fs sink.fileName (by omega)
  have hc1 : fsLookup (shiftLoop fs sink.fileName (sink.maxNumFiles - 2))
      sink.fileName = some c := by
    rw [shiftLoop_frame sink.fileName _ _ _
      (fun k h1 h2 => self_ne_append_dot sink.fileName (natStr k))]
    exact hc
  have hgone : fsLookup (fsRename (shiftLoop fs sink.fileName (sink.maxNumFiles - 2))
      sink.fileName (archName sink.fileName 1)) sink.fileName = none :=
    fsLookup_fsRename_old _ _ _ _ hc1 (base_ne_archName sink.fileName 1)
  rw [sizeRotation, if_pos hover]
  simp only [openLogFile, hopen, if_true]
  rw [if_neg (by rw [fsExists, hgone]; simp)]

/-- Claim C1: for a file sink with nonzero `maxSizeBytes`, a write that finds
the active file strictly larger than `maxSizeBytes` rotates: each existing
archive `path.i` for `i` from `maxArchiveCount - 2` down to 1 is renamed to
`path.(i+1)`, the active file becomes `path.1`, `path` is reopened fresh
(holding only the triggering record afterwards), the creation-date stamp is
reset, and no archive with index `maxArchiveCount` or beyond is ever
created, so at most `maxArchiveCount - 1` numbered archives exist. -/
theorem write_sizeRotation_spec (openable : String → Bool) (fs : Fs) (sink : LogSink)
    (level : LogLevel) (ts : String) (ms : Nat) (today trace : String)
    (hsz : 0 < sink.maxSize)
    (hover : fileSize fs sink.fileName > sink.maxSize)
    (hopen : openable sink.fileName = true)
    (hmnf : 2 ≤ sink.maxNumFiles)
    (hfn : sink.fileName ≠ "") :
    ∃ fs', writeLog openable fs sink level ts ms today trace
        = Except.ok (fs', { sink with creationDate := today }) ∧
      fsLookup fs' (archName sink.fileName 1) = fsLookup fs sink.fileName ∧
      fsLookup fs' sink.fileName = some (logRecord ts ms level trace) ∧
      (∀ i c, 1 ≤ i → i ≤ sink.maxNumFiles - 2 →
        fsLookup fs (archName sink.fileName i) = some c →
        fsLookup fs' (archName sink.fileName (i + 1)) = some c) ∧
      (∀ j, sink.maxNumFiles ≤ j →
        fsLookup fs' (archName sink.fileName j) = fsLookup fs (archName sink.fileName j)) := by
  set base := sink.fileName with hbase
  set fs1 := shiftLoop fs base (sink.maxNumFiles - 2) with hfs1
  set fs2 := fsRename fs1 base (archName base 1) with hfs2
  set fs3 := fsSet fs2 base "" with hfs3
  obtain ⟨c, hc⟩ := exists_of_fileSize_pos fs base (by omega)
  have hc1 : fsLookup fs1 base = some c := by
    rw [hfs1, shiftLoop_frame base _ _ _
      (fun k h1 h2 => self_ne_append_dot base (natStr k))]
    exact hc
  have hrot := sizeRotation_eq_of_over openable fs sink today hover hopen
  have hwrite : writeLog openable fs sink level ts ms today trace
      = Except.ok (sinkAppend fs3 { sink with creationDate := today }
          (logRecord ts ms level trace)) := by
    rw [writeLog, if_pos (by omega), hrot]
  have happ : sinkAppend fs3 { sink with creationDate := today }
      (logRecord ts ms level trace)
      = (fsSet fs3 base (logRecord ts ms level trace), { sink with creationDate := today }) := by
    rw [sinkAppend, if_neg hfn]
    have : fsLookup fs3 base = some "" := by
      rw [hfs3, fsLookup_fsSet, if_pos rfl]
    rw [show ({ sink with creationDate := today } : LogSink).fileName = base from rfl, this]
    rfl
  refine ⟨fsSet fs3 base (logRecord ts ms level trace), by rw [hwrite, happ], ?_, ?_, ?_, ?_⟩
  · rw [fsLookup_fsSet, if_neg (Ne.symm (base_ne_archName base 1)), hfs3,
      fsLookup_fsSet, if_neg (Ne.symm (base_ne_archName base 1)), hfs2,
      fsLookup_fsRename_new fs1 base _ c hc1, hc]
  · rw [fsLookup_fsSet, if_pos rfl]
  · intro i ci h1 h2 hci
    have hne1 : archName base (i + 1) ≠ base := Ne.symm (base_ne_archName base (i + 1))
    have hne2 : archName base (i + 1) ≠ archName base 1 :=
      fun heq => by have := archName_inj heq; omega
    rw [fsLookup_fsSet, if_neg hne1, hfs3, fsLookup_fsSet, if_neg hne1, hfs2,
      fsLookup_fsRename_other _ _ _ _ hne1 hne2, hfs1]
    exact shiftLoop_shift base _ fs i ci h1 (by omega) hci
  · intro j hj
    have hne1 : archName base j ≠ base := Ne.symm (base_ne_archName base j)
    have hne2 : archName base j ≠ archName base 1 :=
      fun heq => by have := archName_inj heq; omega
    rw [fsLookup_fsSet, if_neg hne1, hfs3, fsLookup_fsSet, if_neg hne1, hfs2,
      fsLookup_fsRename_other _ _ _ _ hne1 hne2, hfs1,
      shiftLoop_frame base _ _ _
        (fun k h1 h2 heq => by have := archName_inj heq; omega)]

/-- Witness for C1 at a concrete sink, file system and clock. -/
theorem write_sizeRotation_spec_witness :
    ∃ fs', writeLog (fun _ => true)
        [("app.log", "0123456789"), ("app.log.1", "old1"), ("app.log.2", "old2")]
        { fileName := "app.log", creationDate := "20260101", maxSize := 5,
          maxNumFiles := 4, rotateDaily := false, stdBuf := "",
          dailyTaskStarted := false }
        LogLevel.INFO "2026-01-02 10:00:00" 7 "20260102" "hello"
        = Except.ok (fs',
            { fileName := "app.log", creationDate := "20260102", maxSize := 5,
              maxNumFiles := 4, rotateDaily := false, stdBuf := "",
              dailyTaskStarted := false }) ∧
      fsLookup fs' (archName "app.log" 1)
        = fsLookup [("app.log", "0123456789"), ("app.log.1", "old1"), ("app.log.2", "old2")]
            "app.log" ∧
      fsLookup fs' "app.log"
        = some (logRecord "2026-01-02 10:00:00" 7 LogLevel.INFO "hello") ∧
      (∀ i c, 1 ≤ i → i ≤ 4 - 2 →
        fsLookup [("app.log", "0123456789"), ("app.log.1", "old1"), ("app.log.2", "old2")]
          (archName "app.log" i) = some c →
        fsLookup fs' (archName "app.log" (i + 1)) = some c) ∧
      (∀ j, 4 ≤ j →
        fsLookup fs' (archName "app.log" j)
          = fsLookup [("app.log", "0123456789"), ("app.log.1", "old1"), ("app.log.2", "old2")]
              (archName "app.log" j)) :=
  write_sizeRotation_spec (fun _ => true) _ _ LogLevel.INFO _ 7 _ "hello"
    (by decide) (by decide) rfl (by decide) (by decide)

/-- Claim C2: the daily-rotation task rotates exactly when the computed
current date stamp differs from the sink's stored creation date and the
active file is non-empty; rotation renames the file to
`path.<old-creation-date>`, reopens `path` fresh and stores the new date;
otherwise (in particular whenever the file is empty) nothing changes. -/
theorem dailyRotationStep_spec (openable : String → Bool) (fs : Fs) (sink : LogSink)
    (today : String)
    (hopen : openable sink.fileName = true) :
    (¬ (sink.creationDate ≠ today ∧ fileSize fs sink.fileName ≠ 0) →
      dailyRotationStep openable fs sink today = Except.ok (fs, sink)) ∧
    (sink.creationDate ≠ today → fileSize fs sink.fileName ≠ 0 →
      ∃ fs', dailyRotationStep openable fs sink today
          = Except.ok (fs', { sink with creationDate := today }) ∧
        fsLookup fs' (sink.fileName ++ "." ++ sink.creationDate)
          = fsLookup fs sink.fileName ∧
        fsLookup fs' sink.fileName = some "") := by
  constructor
  · intro h
    rw [dailyRotationStep, if_neg h]
  · intro hdate hsize
    obtain ⟨c, hc⟩ := exists_of_fileSize_pos fs sink.fileName hsize
    set base := sink.fileName with hbase
    set old := base ++ "." ++ sink.creationDate with hold
    have hgone : fsLookup (fsRename fs base old) base = none :=
      fsLookup_fsRename_old _ _ _ _ hc (self_ne_append_dot base sink.creationDate)
    refine ⟨fsSet (fsRename fs base old) base "", ?_, ?_, ?_⟩
    · rw [dailyRotationStep, if_pos ⟨hdate, hsize⟩]
      simp only [openLogFile, hopen, if_true]
      rw [if_neg (by rw [fsExists, hgone]; simp)]
    · rw [fsLookup_fsSet, if_neg (Ne.symm (self_ne_append_dot base sink.creationDate)),
        fsLookup_fsRename_new fs base old c hc, hc]
    · rw [fsLookup_fsSet, if_pos rfl]

/-- Witness for C2 at a concrete sink and file system, in both the rotating
and the empty-file non-rotating situation. -/
theorem dailyRotationStep_spec_witness :
    (¬ (("20260101" : String) ≠ "20260102" ∧
        fileSize [("d.log", "")]
          ({ fileName := "d.log", creationDate := "20260101", maxSize := 0,
             maxNumFiles := 0, rotateDaily := false, stdBuf := "",
             dailyTaskStarted := true } : LogSink).fileName ≠ 0) →
      dailyRotationStep (fun _ => true) [("d.log", "")]
        { fileName := "d.log", creationDate := "20260101", maxSize := 0,
          maxNumFiles := 0, rotateDaily := false, stdBuf := "",
          dailyTaskStarted := true } "20260102"
        = Except.ok ([("d.log", "")],
          { fileName := "d.log", creationDate := "20260101", maxSize := 0,
            maxNumFiles := 0, rotateDaily := false, stdBuf := "",
            dailyTaskStarted := true })) ∧
    (("20260101" : String) ≠ "20260102" →
      fileSize [("d.log", "")]
        ({ fileName := "d.log", creationDate := "20260101", maxSize := 0,
           maxNumFiles := 0, rotateDaily := false, stdBuf := "",
           dailyTaskStarted := true } : LogSink).fileName ≠ 0 →
      ∃ fs', dailyRotationStep (fun _ => true) [("d.log", "")]
          { fileName := "d.log", creationDate := "20260101", maxSize := 0,
            maxNumFiles := 0, rotateDaily := false, stdBuf := "",
            dailyTaskStarted := true } "20260102"
          = Except.ok (fs',
            { fileName := "d.log", creationDate := "20260102", maxSize := 0,
              maxNumFiles := 0, rotateDaily := false, stdBuf := "",
              dailyTaskStarted := true }) ∧
        fsLookup fs' ("d.log" ++ "." ++ "20260101") = fsLookup [("d.log", "")] "d.log" ∧
        fsLookup fs' "d.log" = some "") :=
  dailyRotationStep_spec (fun _ => true) [("d.log", "")]
    { fileName := "d.log", creationDate := "20260101", maxSize := 0,
      maxNumFiles := 0, rotateDaily := false, stdBuf := "",
      dailyTaskStarted := true } "20260102" rfl

/-- Counterexample to claim C3: `setLogFile(LogLevel, ...)` throws the
configuration-conflict error even when the requested path is exactly the
path already assigned to that level (so the failure is not restricted to a
*distinct* path, and no reuse happens in that situation): with DEBUG already
bound to `"A"`, requesting `"A"` for DEBUG errors instead of reusing. -/
theorem setLogFileLevel_claim_cex :
    (sinkOf
        { store := [{ fileName := "A", creationDate := "", maxSize := 0,
                      maxNumFiles := 0, rotateDaily := false, stdBuf := "",
                      dailyTaskStarted := false }],
          sinkId := fun _ => 0 } (slotOf LogLevel.DEBUG)).fileName = "A"
  ∧ setLogFileLevel (fun _ => true)
      { store := [{ fileName := "A", creationDate := "", maxSize := 0,
                    maxNumFiles := 0, rotateDaily := false, stdBuf := "",
                    dailyTaskStarted := false }],
        sinkId := fun _ => 0 } [] LogLevel.DEBUG "A" Policy.NONE 0 0 ""
      = Except.error "Log file already assigned to this log level" :=
  ⟨rfl, rfl⟩

/-- Claim C3 as amended: the call fails with the configuration-conflict
error exactly when the level already has a non-empty file path assigned
(even when the requested path equals it), and the failure leaves the table
and file system unchanged; when the level has no file yet and the requested
path matches an existing sink's path (first match in `_sinks` order), that
sink's reference is reused: no sink is constructed and the level's slot
aliases the matching slot's sink. -/
theorem setLogFileLevel_amended (openable : String → Bool) (st : LoggerState) (fs : Fs)
    (level : LogLevel) (fileName : String) (policy : Policy) (mnf msz : Nat)
    (initDate : String) (hit : Fin 4) :
    ((sinkOf st (slotOf level)).fileName ≠ "" →
      setLogFileLevel openable st fs level fileName policy mnf msz initDate
        = Except.error "Log file already assigned to this log level" ∧
      setLogFileLevelRun openable st fs level fileName policy mnf msz initDate = (st, fs)) ∧
    ((sinkOf st (slotOf level)).fileName = "" →
      slots.find? (fun s => (sinkOf st s).fileName == fileName) = some hit →
      ∃ st', setLogFileLevel openable st fs level fileName policy mnf msz initDate
          = Except.ok (st', fs) ∧
        st'.store = st.store ∧
        st'.sinkId (slotOf level) = st.sinkId hit ∧
        (∀ s, s ≠ slotOf level → st'.sinkId s = st.sinkId s) ∧
        sinkOf st' (slotOf level) = sinkOf st hit) := by
  constructor
  · intro h
    have he : setLogFileLevel openable st fs level fileName policy mnf msz initDate
        = Except.error "Log file already assigned to this log level" := by
      rw [setLogFileLevel, if_pos h]
    exact ⟨he, by rw [setLogFileLevelRun, he]⟩
  · intro h hfind
    refine ⟨{ st with sinkId := fun s =>
      if (s = slotOf level) then st.sinkId hit else st.sinkId s }, ?_, rfl, ?_, ?_, ?_⟩
    · rw [setLogFileLevel, if_neg (fun hne => hne h), hfind]
    · simp
    · intro s hs
      simp [hs]
    · show ({ st with sinkId := fun s =>
        if (s = slotOf level) then st.sinkId hit else st.sinkId s } : LoggerState).store.getD
          (if (slotOf level = slotOf level) then st.sinkId hit else st.sinkId (slotOf level))
          LogSink.ofStream = _
      rw [if_pos rfl]
      rfl

/-- Witness for (amended) C3: DEBUG has no file, INFO already owns `"B"`;
requesting `"B"` for DEBUG reuses INFO's sink. -/
theorem setLogFileLevel_amended_witness :
    ∃ st', setLogFileLevel (fun _ => true)
        { store := [LogSink.ofStream,
                    { fileName := "B", creationDate := "", maxSize := 0,
                      maxNumFiles := 0, rotateDaily := false, stdBuf := "",
                      dailyTaskStarted := false }],
          sinkId := fun s => if (s = (1 : Fin 4)) then 1 else 0 } []
        LogLevel.DEBUG "B" Policy.NONE 0 0 ""
        = Except.ok (st', []) ∧
      st'.store = [LogSink.ofStream,
                   { fileName := "B", creationDate := "", maxSize := 0,
                     maxNumFiles := 0, rotateDaily := false, stdBuf := "",
                     dailyTaskStarted := false }] ∧
      st'.sinkId (slotOf LogLevel.DEBUG) = 1 ∧
      (∀ s, s ≠ slotOf LogLevel.DEBUG →
        st'.sinkId s = (if (s = (1 : Fin 4)) then 1 else 0)) ∧
      sinkOf st' (slotOf LogLevel.DEBUG)
        = { fileName := "B", creationDate := "", maxSize := 0,
            maxNumFiles := 0, rotateDaily := false, stdBuf := "",
            dailyTaskStarted := false } :=
  (setLogFileLevel_amended (fun _ => true)
    { store := [LogSink.ofStream,
                { fileName := "B", creationDate := "", maxSize := 0,
                  maxNumFiles := 0, rotateDaily := false, stdBuf := "",
                  dailyTaskStarted := false }],
      sinkId := fun s => if (s = (1 : Fin 4)) then 1 else 0 } []
    LogLevel.DEBUG "B" Policy.NONE 0 0 "" 1).2 rfl rfl

/-- Gate state whose entry points carry the implementation pairs given at
their definition (logger.h:207-213): real write / discarding no-op, real
stream accessor / null stream.  `setLevel` only flips the selection, so
every gate state the logger can reach satisfies this. -/
def sourceImpls (g : GateState) : Prop :=
  g.debug.f1 = (fun trace => some (LogLevel.DEBUG, trace)) ∧
  g.debug.f2 = (fun _ => none) ∧
  g.info.f1 = (fun trace => some (LogLevel.INFO, trace)) ∧
  g.info.f2 = (fun _ => none) ∧
  g.error.f1 = (fun trace => some (LogLevel.ERROR, trace)) ∧
  g.error.f2 = (fun _ => none) ∧
  g.getDebugStream.f1 = some LogLevel.DEBUG ∧ g.getDebugStream.f2 = none ∧
  g.getInfoStream.f1 = some LogLevel.INFO ∧ g.getInfoStream.f2 = none ∧
  g.getErrorStream.f1 = some LogLevel.ERROR ∧ g.getErrorStream.f2 = none

/-- Counterexample to claim C4: after `setLevel(NONE)` the ERROR *write
function* itself is switched to the discarding no-op (`error.enableSecond()`
in the NONE case of logger.h:344-350), so it does not remain active: calling
it produces no write at all. -/
theorem setLevel_claim_cex :
    (setLevel initGates LogLevel.NONE).error.call "x" = none ∧
    (setLevel initGates LogLevel.NONE).error.call "x" ≠ some (LogLevel.ERROR, "x") :=
  ⟨rfl, fun h => Option.noConfusion h⟩

/-- Claim C4 as amended: after `setLevel(ERROR)` the DEBUG and INFO write
entry points and stream accessors are disabled while ERROR's write entry
point and stream accessor still work; after `setLevel(NONE)` all six entry
points are disabled, *including* the ERROR write function (the runtime gate
does disable ERROR's write; only the compile-time macro layer keeps
`logError` always expanding to a real call).  `setLevel` never changes the
implementation pairs themselves. -/
theorem setLevel_amended (g : GateState) (trace : String) (h : sourceImpls g) :
    ((setLevel g LogLevel.ERROR).debug.call trace = none ∧
     (setLevel g LogLevel.ERROR).info.call trace = none ∧
     (setLevel g LogLevel.ERROR).getDebugStream.call = none ∧
     (setLevel g LogLevel.ERROR).getInfoStream.call = none ∧
     (setLevel g LogLevel.ERROR).error.call trace = some (LogLevel.ERROR, trace) ∧
     (setLevel g LogLevel.ERROR).getErrorStream.call = some LogLevel.ERROR) ∧
    ((setLevel g LogLevel.NONE).debug.call trace = none ∧
     (setLevel g LogLevel.NONE).info.call trace = none ∧
     (setLevel g LogLevel.NONE).error.call trace = none ∧
     (setLevel g LogLevel.NONE).getDebugStream.call = none ∧
     (setLevel g LogLevel.NONE).getInfoStream.call = none ∧
     (setLevel g LogLevel.NONE).getErrorStream.call = none) ∧
    (sourceImpls initGates ∧ ∀ l, sourceImpls (setLevel g l)) := by
  obtain ⟨h1, h2, h3, h4, h5, h6, h7, h8, h9, h10, h11, h12⟩ := h
  refine ⟨⟨?_, ?_, ?_, ?_, ?_, ?_⟩, ⟨?_, ?_, ?_, ?_, ?_, ?_⟩,
    ⟨rfl, rfl, rfl, rfl, rfl, rfl, rfl, rfl, rfl, rfl, rfl, rfl⟩, ?_⟩ <;>
    first
    | (intro l; cases l <;>
        exact ⟨h1, h2, h3, h4, h5, h6, h7, h8, h9, h10, h11, h12⟩)
    | simp [setLevel, DualFunction.call, DualFunction.enableFirst,
        DualFunction.enableSecond, h1, h2, h3, h4, h5, h6, h7, h8, h9, h10, h11, h12]

/-- Witness for (amended) C4 at the initial gate state. -/
theorem setLevel_amended_witness :
    ((setLevel initGates LogLevel.ERROR).debug.call "x" = none ∧
     (setLevel initGates LogLevel.ERROR).info.call "x" = none ∧
     (setLevel initGates LogLevel.ERROR).getDebugStream.call = none ∧
     (setLevel initGates LogLevel.ERROR).getInfoStream.call = none ∧
     (setLevel initGates LogLevel.ERROR).error.call "x" = some (LogLevel.ERROR, "x") ∧
     (setLevel initGates LogLevel.ERROR).getErrorStream.call = some LogLevel.ERROR) ∧
    ((setLevel initGates LogLevel.NONE).debug.call "x" = none ∧
     (setLevel initGates LogLevel.NONE).info.call "x" = none ∧
     (setLevel initGates LogLevel.NONE).error.call "x" = none ∧
     (setLevel initGates LogLevel.NONE).getDebugStream.call = none ∧
     (setLevel initGates LogLevel.NONE).getInfoStream.call = none ∧
     (setLevel initGates LogLevel.NONE).getErrorStream.call = none) ∧
    (sourceImpls initGates ∧ ∀ l, sourceImpls (setLevel initGates l)) :=
  setLevel_amended initGates "x"
    ⟨rfl, rfl, rfl, rfl, rfl, rfl, rfl, rfl, rfl, rfl, rfl, rfl⟩

theorem openLogFile_ok (openable : String → Bool) (fs : Fs) (fileName : String)
    (h : openable fileName = true) :
    openLogFile openable fs fileName
      = Except.ok (if fsExists fs fileName then fs else fsSet fs fileName "") := by
  rw [openLogFile, if_pos h]
  by_cases he : fsExists fs fileName <;> simp [he]

theorem openLogFile_err (openable : String → Bool) (fs : Fs) (fileName : String)
    (h : openable fileName = false) :
    openLogFile openable fs fileName
      = Except.error ("Log File cannot be opened: " ++ fileName) := by
  rw [openLogFile, if_neg (by simp [h])]

theorem mkFileSink_ok (openable : String → Bool) (fs : Fs) (fileName : String)
    (policy : Policy) (mnf msz : Nat) (initDate : String)
    (hopen : openable fileName = true) :
    ∃ sink fs1, mkFileSink openable fs fileName policy mnf msz initDate
      = Except.ok (sink, fs1) := by
  by_cases hp : policy = Policy.DAILY <;>
    simp only [mkFileSink, hp, if_true, if_false, openLogFile_ok, hopen] <;>
    exact ⟨_, _, rfl⟩

theorem mkFileSink_err (openable : String → Bool) (fs : Fs) (fileName : String)
    (policy : Policy) (mnf msz : Nat) (initDate : String)
    (hbad : openable fileName = false) :
    mkFileSink openable fs fileName policy mnf msz initDate
      = Except.error ("Log File cannot be opened: " ++ fileName) := by
  by_cases hp : policy = Policy.DAILY <;>
    simp only [mkFileSink, hp, if_true, if_false, openLogFile_err, hbad]

theorem getD_append_length (l : List LogSink) (a d : LogSink) :
    (l ++ [a]).getD l.length d = a := by
  induction l with
  | nil => rfl
  | cons x xs ih => exact ih

/-- Claim C5: the global `setLogFile(path, ...)` fails when any of the four
levels already has a non-empty file path assigned (reporting the first such
sink), and the failure leaves the table and the file system unchanged; on
success exactly one new file sink is constructed (appended to the arena) and
all four level slots are assigned the same reference to it. -/
theorem setLogFileAll_spec (openable : String → Bool) (st : LoggerState) (fs : Fs)
    (fileName : String) (policy : Policy) (mnf msz : Nat) (initDate : String)
    (bad : Fin 4) :
    (slots.find? (fun s => !((sinkOf st s).fileName == "")) = some bad →
      setLogFileAll openable st fs fileName policy mnf msz initDate
        = Except.error ("Log file already assigned to a log sink: "
            ++ (sinkOf st bad).fileName) ∧
      setLogFileAllRun openable st fs fileName policy mnf msz initDate = (st, fs)) ∧
    (slots.find? (fun s => !((sinkOf st s).fileName == "")) = none →
      openable fileName = true →
      ∃ sink fs1,
        mkFileSink openable fs fileName policy mnf msz initDate = Except.ok (sink, fs1) ∧
        setLogFileAll openable st fs fileName policy mnf msz initDate
          = Except.ok ({ store := st.store ++ [sink],
                         sinkId := fun _ => st.store.length }, fs1) ∧
        (∀ s : Fin 4,
          sinkOf { store := st.store ++ [sink], sinkId := fun _ => st.store.length } s
            = sink)) := by
  constructor
  · intro hfind
    have he : setLogFileAll openable st fs fileName policy mnf msz initDate
        = Except.error ("Log file already assigned to a log sink: "
            ++ (sinkOf st bad).fileName) := by
      rw [setLogFileAll, hfind]
    exact ⟨he, by rw [setLogFileAllRun, he]⟩
  · intro hfind hopen
    obtain ⟨sink, fs1, hmk⟩ :=
      mkFileSink_ok openable fs fileName policy mnf msz initDate hopen
    refine ⟨sink, fs1, hmk, ?_, ?_⟩
    · rw [setLogFileAll, hfind, hmk]
    · intro s
      show (st.store ++ [sink]).getD st.store.length LogSink.ofStream = sink
      exact getD_append_length st.store sink LogSink.ofStream

/-- Witness for C5: both the conflict failure (INFO already owns `"B"`) and
the successful global assignment from the pristine initial state. -/
theorem setLogFileAll_spec_witness :
    (setLogFileAll (fun _ => true)
        { store := [LogSink.ofStream,
                    { fileName := "B", creationDate := "", maxSize := 0,
                      maxNumFiles := 0, rotateDaily := false, stdBuf := "",
                      dailyTaskStarted := false }],
          sinkId := fun s => if (s = (1 : Fin 4)) then 1 else 0 } []
        "G" Policy.NONE 0 0 ""
        = Except.error ("Log file already assigned to a log sink: "
            ++ (sinkOf
              { store := [LogSink.ofStream,
                          { fileName := "B", creationDate := "", maxSize := 0,
                            maxNumFiles := 0, rotateDaily := false, stdBuf := "",
                            dailyTaskStarted := false }],
                sinkId := fun s => if (s = (1 : Fin 4)) then 1 else 0 } 1).fileName) ∧
      setLogFileAllRun (fun _ => true)
        { store := [LogSink.ofStream,
                    { fileName := "B", creationDate := "", maxSize := 0,
                      maxNumFiles := 0, rotateDaily := false, stdBuf := "",
                      dailyTaskStarted := false }],
          sinkId := fun s => if (s = (1 : Fin 4)) then 1 else 0 } []
        "G" Policy.NONE 0 0 ""
        = ({ store := [LogSink.ofStream,
                       { fileName := "B", creationDate := "", maxSize := 0,
                         maxNumFiles := 0, rotateDaily := false, stdBuf := "",
                         dailyTaskStarted := false }],
             sinkId := fun s => if (s = (1 : Fin 4)) then 1 else 0 }, [])) ∧
    (∃ sink fs1,
      mkFileSink (fun _ => true) [] "G" Policy.NONE 0 0 "" = Except.ok (sink, fs1) ∧
      setLogFileAll (fun _ => true) initLoggerState [] "G" Policy.NONE 0 0 ""
        = Except.ok ({ store := initLoggerState.store ++ [sink],
                       sinkId := fun _ => initLoggerState.store.length }, fs1) ∧
      (∀ s : Fin 4,
        sinkOf { store := initLoggerState.store ++ [sink],
                 sinkId := fun _ => initLoggerState.store.length } s = sink)) :=
  ⟨(setLogFileAll_spec (fun _ => true)
      { store := [LogSink.ofStream,
                  { fileName := "B", creationDate := "", maxSize := 0,
                    maxNumFiles := 0, rotateDaily := false, stdBuf := "",
                    dailyTaskStarted := false }],
        sinkId := fun s => if (s = (1 : Fin 4)) then 1 else 0 } []
      "G" Policy.NONE 0 0 "" 1).1 rfl,
   (setLogFileAll_spec (fun _ => true) initLoggerState [] "G" Policy.NONE 0 0 "" 0).2
     rfl rfl⟩

/-- Claim C6: when the log file cannot be opened during file-sink
construction, the error is raised synchronously to the caller of the
sink-assignment operation, and no partially-constructed sink is installed:
the level-to-sink table (and the file system) keep their previous state. -/
theorem openFailure_spec (openable : String → Bool) (st : LoggerState) (fs : Fs)
    (level : LogLevel) (fileName : String) (policy : Policy) (mnf msz : Nat)
    (initDate : String)
    (hbad : openable fileName = false)
    (hfree : (sinkOf st (slotOf level)).fileName = "")
    (hnohit : slots.find? (fun s => (sinkOf st s).fileName == fileName) = none) :
    mkFileSink openable fs fileName policy mnf msz initDate
      = Except.error ("Log File cannot be opened: " ++ fileName) ∧
    setLogFileLevel openable st fs level fileName policy mnf msz initDate
      = Except.error ("Log File cannot be opened: " ++ fileName) ∧
    setLogFileLevelRun openable st fs level fileName policy mnf msz initDate
      = (st, fs) := by
  have hmk := mkFileSink_err openable fs fileName policy mnf msz initDate hbad
  have hset : setLogFileLevel openable st fs level fileName policy mnf msz initDate
      = Except.error ("Log File cannot be opened: " ++ fileName) := by
    rw [setLogFileLevel, if_neg (fun hne => hne hfree), hnohit, hmk]
  exact ⟨hmk, hset, by rw [setLogFileLevelRun, hset]⟩

/-- Witness for C6: an unopenable path requested for DEBUG from the initial
state leaves the table untouched. -/
theorem openFailure_spec_witness :
    mkFileSink (fun _ => false) [] "bad.log" Policy.NONE 0 0 ""
      = Except.error ("Log File cannot be opened: " ++ "bad.log") ∧
    setLogFileLevel (fun _ => false) initLoggerState [] LogLevel.DEBUG "bad.log"
      Policy.NONE 0 0 ""
      = Except.error ("Log File cannot be opened: " ++ "bad.log") ∧
    setLogFileLevelRun (fun _ => false) initLoggerState [] LogLevel.DEBUG "bad.log"
      Policy.NONE 0 0 "" = (initLoggerState, []) :=
  openFailure_spec (fun _ => false) initLoggerState [] LogLevel.DEBUG "bad.log"
    Policy.NONE 0 0 "" rfl rfl rfl

/-- Content currently held by a sink's stream: the owned file's content for
a file-backed sink, the wrapped standard stream's output otherwise. -/
def streamContent (fs : Fs) (sink : LogSink) : String :=
  if sink.fileName = "" then sink.stdBuf else (fsLookup fs sink.fileName).getD ""

theorem streamContent_sinkAppend (fs : Fs) (sink : LogSink) (s : String) :
    streamContent (sinkAppend fs sink s).1 (sinkAppend fs sink s).2
      = streamContent fs sink ++ s := by
  by_cases h : sink.fileName = ""
  · simp [sinkAppend, streamContent, h]
  · simp [sinkAppend, streamContent, h, fsLookup_fsSet]

theorem natDigits_length_one (n : Nat) (h : n < 10) : (natDigits n).length = 1 := by
  rw [natDigits, dif_pos h]
  rfl

theorem natDigits_length_two (n : Nat) (h1 : 10 ≤ n) (h2 : n < 100) :
    (natDigits n).length = 2 := by
  rw [natDigits, dif_neg (by omega)]
  rw [List.length_append, natDigits_length_one (n / 10) (by omega)]
  rfl

theorem natDigits_length_three (n : Nat) (h1 : 100 ≤ n) (h2 : n < 1000) :
    (natDigits n).length = 3 := by
  rw [natDigits, dif_neg (by omega)]
  rw [List.length_append, natDigits_length_two (n / 10) (by omega) (by omega)]
  rfl

theorem pad3_length (n : Nat) (h : n < 1000) : (pad3 n).length = 3 := by
  by_cases h1 : n < 10
  · rw [pad3, if_pos h1, String.length_append]
    rw [show (natStr n).length = (natDigits n).length from rfl,
      natDigits_length_one n h1]
    rfl
  · by_cases h2 : n < 100
    · rw [pad3, if_neg h1, if_pos h2, String.length_append]
      rw [show (natStr n).length = (natDigits n).length from rfl,
        natDigits_length_two n (by omega) h2]
      rfl
    · rw [pad3, if_neg h1, if_neg h2]
      rw [show (natStr n).length = (natDigits n).length from rfl,
        natDigits_length_three n (by omega) h]

theorem sizeRotation_ok (openable : String → Bool) (fs : Fs) (sink : LogSink)
    (today : String) (hopen : openable sink.fileName = true) :
    ∃ fs1 sink1, sizeRotation openable fs sink today = Except.ok (fs1, sink1) := by
  by_cases hover : fileSize fs sink.fileName > sink.maxSize
  · exact ⟨_, _, sizeRotation_eq_of_over openable fs sink today hover hopen⟩
  · exact ⟨fs, sink, by rw [sizeRotation, if_neg hover]⟩

/-- Claim C7: whenever the sink's rotation step cannot fail (no size limit,
or the sink's path can be opened), a write never raises and appends exactly
one record of the form `\n<timestamp>.<mmm> - <header><message>` to the
resolved sink's stream, with a three-digit millisecond field and the
level-specific header. -/
theorem write_spec (openable : String → Bool) (fs : Fs) (sink : LogSink)
    (level : LogLevel) (ts : String) (ms : Nat) (today trace : String)
    (hok : sink.maxSize = 0 ∨ openable sink.fileName = true)
    (hms : ms < 1000) :
    ∃ fs1 sink1,
      writeLog openable fs sink level ts ms today trace
        = Except.ok (sinkAppend fs1 sink1 (logRecord ts ms level trace)) ∧
      streamContent (sinkAppend fs1 sink1 (logRecord ts ms level trace)).1
          (sinkAppend fs1 sink1 (logRecord ts ms level trace)).2
        = streamContent fs1 sink1 ++ logRecord ts ms level trace ∧
      logRecord ts ms level trace
        = "\n" ++ ts ++ "." ++ pad3 ms ++ " - " ++ headerOf level ++ trace ∧
      (pad3 ms).length = 3 := by
  have hrot : ∃ fs1 sink1,
      (if sink.maxSize ≠ 0 then sizeRotation openable fs sink today
       else Except.ok (fs, sink)) = Except.ok (fs1, sink1) := by
    by_cases hz : sink.maxSize = 0
    · exact ⟨fs, sink, by rw [if_neg (fun hc => hc hz)]⟩
    · obtain ⟨fs1, sink1, h1⟩ := sizeRotation_ok openable fs sink today
        (hok.resolve_left hz)
      exact ⟨fs1, sink1, by rw [if_pos hz, h1]⟩
  obtain ⟨fs1, sink1, h1⟩ := hrot
  refine ⟨fs1, sink1, ?_, streamContent_sinkAppend fs1 sink1 _, rfl,
    pad3_length ms hms⟩
  rw [writeLog, h1]

/-- Witness for C7: a write to the default standard-output sink. -/
theorem write_spec_witness :
    ∃ fs1 sink1,
      writeLog (fun _ => true) [] LogSink.ofStream LogLevel.DEBUG
          "2026-01-02 10:00:00" 7 "20260102" "hello"
        = Except.ok (sinkAppend fs1 sink1
            (logRecord "2026-01-02 10:00:00" 7 LogLevel.DEBUG "hello")) ∧
      streamContent
          (sinkAppend fs1 sink1 (logRecord "2026-01-02 10:00:00" 7 LogLevel.DEBUG "hello")).1
          (sinkAppend fs1 sink1 (logRecord "2026-01-02 10:00:00" 7 LogLevel.DEBUG "hello")).2
        = streamContent fs1 sink1 ++ logRecord "2026-01-02 10:00:00" 7 LogLevel.DEBUG "hello" ∧
      logRecord "2026-01-02 10:00:00" 7 LogLevel.DEBUG "hello"
        = "\n" ++ "2026-01-02 10:00:00" ++ "." ++ pad3 7 ++ " - "
            ++ headerOf LogLevel.DEBUG ++ "hello" ∧
      (pad3 7).length = 3 :=
  write_spec (fun _ => true) [] LogSink.ofStream LogLevel.DEBUG
    "2026-01-02 10:00:00" 7 "20260102" "hello" (Or.inl rfl) (by decide)


/-- Claim C8: a file sink constructed with SizeLimit policy and nonzero
`maxSizeBytes` stores `maxNumFiles` of at least 2 (the requested value is
clamped up when smaller), and no state-updating operation of the logger
(size rotation, daily rotation, the write path) ever changes a sink's
`maxNumFiles`, so the bound holds for the sink's entire lifetime. -/
theorem maxNumFiles_clamp_spec (openable : String → Bool) (msz : Nat)
    (hsz : msz ≠ 0) :
    (∀ fs fileName mnf initDate sink fs1,
      mkFileSink openable fs fileName Policy.MAX_SIZE mnf msz initDate
        = Except.ok (sink, fs1) →
      sink.maxNumFiles = max mnf 2 ∧ 2 ≤ sink.maxNumFiles) ∧
    (∀ fs sink today fs1 sink1,
      sizeRotation openable fs sink today = Except.ok (fs1, sink1) →
      sink1.maxNumFiles = sink.maxNumFiles) ∧
    (∀ fs sink today fs1 sink1,
      dailyRotationStep openable fs sink today = Except.ok (fs1, sink1) →
      sink1.maxNumFiles = sink.maxNumFiles) ∧
    (∀ fs sink level ts ms today trace fs1 sink1,
      writeLog openable fs sink level ts ms today trace = Except.ok (fs1, sink1) →
      sink1.maxNumFiles = sink.maxNumFiles) := by
  have hsr : ∀ fs sink today fs1 sink1,
      sizeRotation openable fs sink today = Except.ok (fs1, sink1) →
      sink1.maxNumFiles = sink.maxNumFiles := by
    intro fs sink today fs1 sink1 h
    by_cases hover : fileSize fs sink.fileName > sink.maxSize
    · rw [sizeRotation, if_pos hover] at h
      cases ho : openLogFile openable
          (fsRename (shiftLoop fs sink.fileName (sink.maxNumFiles - 2))
            sink.fileName (archName sink.fileName 1)) sink.fileName with
      | error e => simp only [ho] at h; exact Except.noConfusion h
      | ok fs2 =>
        simp only [ho, Except.ok.injEq, Prod.mk.injEq] at h
        rw [← h.2]
    · rw [sizeRotation, if_neg hover] at h
      simp only [Except.ok.injEq, Prod.mk.injEq] at h
      rw [← h.2]
  refine ⟨?_, hsr, ?_, ?_⟩
  · intro fs fileName mnf initDate sink fs1 h
    rw [mkFileSink, if_neg (by intro hc; cases hc)] at h
    cases ho : openLogFile openable fs fileName with
    | error e => simp only [ho] at h; exact Except.noConfusion h
    | ok fs2 =>
      simp only [ho, Except.ok.injEq, Prod.mk.injEq] at h
      have hmf : sink.maxNumFiles = max mnf 2 := by
        rw [← h.1]
        simp [hsz]
      exact ⟨hmf, by rw [hmf]; omega⟩
  · intro fs sink today fs1 sink1 h
    by_cases hc : sink.creationDate ≠ today ∧ fileSize fs sink.fileName ≠ 0
    · rw [dailyRotationStep, if_pos hc] at h
      cases ho : openLogFile openable
          (fsRename fs sink.fileName (sink.fileName ++ "." ++ sink.creationDate))
          sink.fileName with
      | error e => simp only [ho] at h; exact Except.noConfusion h
      | ok fs2 =>
        simp only [ho, Except.ok.injEq, Prod.mk.injEq] at h
        rw [← h.2]
    · rw [dailyRotationStep, if_neg hc] at h
      simp only [Except.ok.injEq, Prod.mk.injEq] at h
      rw [← h.2]
  · intro fs sink level ts ms today trace fs1 sink1 h
    rw [writeLog] at h
    by_cases hz : sink.maxSize ≠ 0
    · rw [if_pos hz] at h
      cases hr : sizeRotation openable fs sink today with
      | error e => simp only [hr] at h; exact Except.noConfusion h
      | ok p =>
        simp only [hr, Except.ok.injEq] at h
        have hmf := hsr fs sink today p.1 p.2 (by rw [hr])
        have h2 := congrArg Prod.snd h.symm
        rw [sinkAppend] at h2
        by_cases hfn : p.2.fileName = ""
        · rw [if_pos hfn] at h2
          simp only at h2
          rw [h2]
          exact hmf
        · rw [if_neg hfn] at h2
          simp only at h2
          rw [h2]
          exact hmf
    · rw [if_neg hz] at h
      simp only [Except.ok.injEq] at h
      have h2 := congrArg Prod.snd h.symm
      rw [sinkAppend] at h2
      by_cases hfn : sink.fileName = ""
      · rw [if_pos hfn] at h2
        simp only at h2
        rw [h2]
      · rw [if_neg hfn] at h2
        simp only at h2
        rw [h2]

/-- Witness for C8: size limit 5 with requested archive count 0 clamps the
stored count to 2, and every operation preserves the stored count. -/
theorem maxNumFiles_clamp_spec_witness :
    (∀ fs fileName mnf initDate sink fs1,
      mkFileSink (fun _ => true) fs fileName Policy.MAX_SIZE mnf 5 initDate
        = Except.ok (sink, fs1) →
      sink.maxNumFiles = max mnf 2 ∧ 2 ≤ sink.maxNumFiles) ∧
    (∀ fs sink today fs1 sink1,
      sizeRotation (fun _ => true) fs sink today = Except.ok (fs1, sink1) →
      sink1.maxNumFiles = sink.maxNumFiles) ∧
    (∀ fs sink today fs1 sink1,
      dailyRotationStep (fun _ => true) fs sink today = Except.ok (fs1, sink1) →
      sink1.maxNumFiles = sink.maxNumFiles) ∧
    (∀ fs sink level ts ms today trace fs1 sink1,
      writeLog (fun _ => true) fs sink level ts ms today trace
        = Except.ok (fs1, sink1) →
      sink1.maxNumFiles = sink.maxNumFiles) :=
  maxNumFiles_clamp_spec (fun _ => true) 5 (by decide)

/-- Claim C9: timer stop is strictly LIFO and degrades gracefully: with a
non-empty stack, `stopTimer` pops the most recently started (back) timer and
writes the STOPPED line with the elapsed duration measured against that
start, while `startTimer` pushes on the back; with an empty stack it writes
"Timer not started!" and, being a total function, raises nothing. -/
theorem timer_lifo_spec (unitCast : Nat → Nat) (unit fn : String) (line : Nat)
    (stopTime : Nat) (out : String) :
    (∀ (ts : List Nat) (t : Nat),
      stopTimer unitCast unit fn line stopTime (ts ++ [t]) out
        = (ts, out ++ "\nTimer #" ++ natStr (ts.length + 1) ++ " STOPPED at " ++ fn
            ++ " (Line " ++ natStr line ++ ") --- DURATION = "
            ++ natStr (unitCast (stopTime - t)) ++ " " ++ unit)) ∧
    (stopTimer unitCast unit fn line stopTime [] out
      = ([], out ++ "Timer not started!" ++ "\n")) ∧
    (∀ (now : Nat) (ts : List Nat) (outp : String),
      (startTimer fn line now ts outp).1 = ts ++ [now] ∧
      (startTimer fn line now ts outp).2
        = outp ++ "\nTimer #" ++ natStr (ts.length + 1) ++ " STARTED at " ++ fn
            ++ " (Line " ++ natStr line ++ ")") := by
  refine ⟨?_, rfl, fun now ts outp => ⟨rfl, rfl⟩⟩
  intro ts t
  simp only [stopTimer, List.getLast?_concat, List.dropLast_concat,
    List.length_append, List.length_cons, List.length_nil]

/-- Claim C10: a nonzero `maxSizeBytes` is stored and triggers size rotation
on every write regardless of the declared policy: a file sink constructed
with `Policy::NONE` or `Policy::DAILY` and nonzero `maxSizeBytes` stores
`maxNumFiles = 0`, so the archive-shift loop never runs and a size-rotating
write only ever produces `path.1` (every other path is untouched); the
policy argument only determines the `maxNumFiles` clamp and whether the
daily-rotation task is launched. -/
theorem sizeRotation_policy_independent (openable : String → Bool) (fs : Fs)
    (fileName : String) (policy : Policy) (mnf msz : Nat) (initDate : String)
    (sink : LogSink) (fs0 : Fs)
    (hpol : policy = Policy.NONE ∨ policy = Policy.DAILY)
    (hsz : msz ≠ 0)
    (hmk : mkFileSink openable fs fileName policy mnf msz initDate
      = Except.ok (sink, fs0)) :
    sink.maxSize = msz ∧
    sink.maxNumFiles = 0 ∧
    (sink.dailyTaskStarted = true ↔ policy = Policy.DAILY) ∧
    (∀ fs2 : Fs, shiftLoop fs2 sink.fileName (sink.maxNumFiles - 2) = fs2) ∧
    (∀ (fs2 : Fs) (level : LogLevel) (ts : String) (ms : Nat) (today trace : String),
      fileSize fs2 sink.fileName > sink.maxSize →
      openable sink.fileName = true →
      sink.fileName ≠ "" →
      ∃ fs3, writeLog openable fs2 sink level ts ms today trace
          = Except.ok (fs3, { sink with creationDate := today }) ∧
        fsLookup fs3 (archName sink.fileName 1) = fsLookup fs2 sink.fileName ∧
        fsLookup fs3 sink.fileName = some (logRecord ts ms level trace) ∧
        (∀ m, m ≠ sink.fileName → m ≠ archName sink.fileName 1 →
          fsLookup fs3 m = fsLookup fs2 m)) := by
  have hfields : sink.maxSize = msz ∧ sink.maxNumFiles = 0 ∧
      (sink.dailyTaskStarted = true ↔ policy = Policy.DAILY) := by
    cases hpol with
    | inl hp =>
      subst hp
      rw [mkFileSink, if_neg (by intro hc; cases hc)] at hmk
      cases ho : openLogFile openable fs fileName with
      | error e => rw [ho] at hmk; exact Except.noConfusion hmk
      | ok fs2 =>
        simp only [ho, Except.ok.injEq, Prod.mk.injEq] at hmk
        rw [← hmk.1]
        refine ⟨rfl, by simp, by simp⟩
    | inr hp =>
      subst hp
      rw [mkFileSink, if_pos rfl] at hmk
      cases ho : openLogFile openable fs fileName with
      | error e => rw [ho] at hmk; exact Except.noConfusion hmk
      | ok fs2 =>
        cases ho2 : openLogFile openable fs2 fileName with
        | error e =>
          rw [ho] at hmk
          simp only [ho2] at hmk
          exact Except.noConfusion hmk
        | ok fs3 =>
          rw [ho] at hmk
          simp only [ho2, Except.ok.injEq, Prod.mk.injEq] at hmk
          rw [← hmk.1]
          refine ⟨rfl, by simp, by simp⟩
  obtain ⟨hmsz, hm0, hdaily⟩ := hfields
  have hloop : ∀ fs2 : Fs, shiftLoop fs2 sink.fileName (sink.maxNumFiles - 2) = fs2 := by
    intro fs2
    rw [hm0]
    rfl
  refine ⟨hmsz, hm0, hdaily, hloop, ?_⟩
  intro fs2 level ts ms today trace hover hopen hfn
  set base := sink.fileName with hbase
  have hrot := sizeRotation_eq_of_over openable fs2 sink today hover hopen
  rw [hloop fs2] at hrot
  set fsR := fsSet (fsRename fs2 base (archName base 1)) base "" with hfsR
  have hwrite : writeLog openable fs2 sink level ts ms today trace
      = Except.ok (sinkAppend fsR { sink with creationDate := today }
          (logRecord ts ms level trace)) := by
    rw [writeLog, if_pos (by rw [hmsz]; exact fun hc => hsz hc), hrot]
  have hbase0 : fsLookup fsR base = some "" := by
    rw [hfsR, fsLookup_fsSet, if_pos rfl]
  have happ : sinkAppend fsR { sink with creationDate := today }
      (logRecord ts ms level trace)
      = (fsSet fsR base (logRecord ts ms level trace),
         { sink with creationDate := today }) := by
    rw [sinkAppend, if_neg hfn]
    rw [show ({ sink with creationDate := today } : LogSink).fileName = base from rfl,
      hbase0]
    rfl
  obtain ⟨c, hc⟩ := exists_of_fileSize_pos fs2 base (by omega)
  refine ⟨fsSet fsR base (logRecord ts ms level trace), by rw [hwrite, happ], ?_, ?_, ?_⟩
  · rw [fsLookup_fsSet, if_neg (Ne.symm (base_ne_archName base 1)), hfsR,
      fsLookup_fsSet, if_neg (Ne.symm (base_ne_archName base 1)),
      fsLookup_fsRename_new fs2 base _ c hc, hc]
  · rw [fsLookup_fsSet, if_pos rfl]
  · intro m hm1 hm2
    rw [fsLookup_fsSet, if_neg hm1, hfsR, fsLookup_fsSet, if_neg hm1,
      fsLookup_fsRename_other _ _ _ _ hm1 hm2]

/-- Witness for C10: a `Policy::NONE` sink with `maxSize = 3` rotating on a
write that finds 5 bytes in the active file. -/
theorem sizeRotation_policy_independent_witness :
    ∃ sink fs0,
      mkFileSink (fun _ => true) [("n.log", "abcde")] "n.log" Policy.NONE 7 3 ""
        = Except.ok (sink, fs0) ∧
      sink.maxSize = 3 ∧
      sink.maxNumFiles = 0 ∧
      (sink.dailyTaskStarted = true ↔ Policy.NONE = Policy.DAILY) ∧
      (∀ fs2 : Fs, shiftLoop fs2 sink.fileName (sink.maxNumFiles - 2) = fs2) ∧
      (∀ (fs2 : Fs) (level : LogLevel) (ts : String) (ms : Nat) (today trace : String),
        fileSize fs2 sink.fileName > sink.maxSize →
        (fun _ => true : String → Bool) sink.fileName = true →
        sink.fileName ≠ "" →
        ∃ fs3, writeLog (fun _ => true) fs2 sink level ts ms today trace
            = Except.ok (fs3, { sink with creationDate := today }) ∧
          fsLookup fs3 (archName sink.fileName 1) = fsLookup fs2 sink.fileName ∧
          fsLookup fs3 sink.fileName = some (logRecord ts ms level trace) ∧
          (∀ m, m ≠ sink.fileName → m ≠ archName sink.fileName 1 →
            fsLookup fs3 m = fsLookup fs2 m)) :=
  ⟨{ fileName := "n.log", creationDate := "", maxSize := 3, maxNumFiles := 0,
     rotateDaily := false, stdBuf := "", dailyTaskStarted := false },
   [("n.log", "abcde")], rfl,
   sizeRotation_policy_independent (fun _ => true) [("n.log", "abcde")] "n.log"
     Policy.NONE 7 3 ""
     { fileName := "n.log", creationDate := "", maxSize := 3, maxNumFiles := 0,
       rotateDaily := false, stdBuf := "", dailyTaskStarted := false }
     [("n.log", "abcde")] (Or.inl rfl) (by decide) rfl⟩
